import Mathlib

/-!
Verification of the MMO-BE onboarding backend against its specification.

The definitions below are a shallow embedding of the request handlers in
`src/routes/onboarding.js`, `src/routes/auth.js` and `src/routes/user.js`.
Each relational-store table is modelled as a Lean list of rows; a handler is
a pure function from the table snapshots it reads to a result value and the
table snapshots it leaves behind.  Races with externally-materialized rows
(the identity provider's trigger) are modelled by passing two snapshots of a
table: its state when the first statement runs and its state when the second
statement runs.  Timestamps are abstract naturals.
-/

namespace MMO

/-- Caller roles (auth.js signupSchema line 10: admin, manager, employee). -/
inductive Role
  | admin
  | manager
  | employee
deriving DecidableEq, Repr

/-- The thirteen form tables enumerated in routes/onboarding.js
(GET /forms, lines 295-309, and GET /admin/employee/:id, lines 404-418). -/
inductive FormType
  | complianceStatements
  | confidentialityAgreements
  | directDepositAuthorizations
  | fieldPracticeStatements
  | hepatitisBVaccinations
  | healthStatements
  | influenzaVaccinationDeclinations
  | jobAcceptanceForms
  | jobDescriptionAcknowledgments
  | ppeAcknowledgements
  | policiesProceduresStatements
  | employeeHandbookAcknowledgments
  | tbMedicalQuestionnaires
deriving DecidableEq, Repr

/-- The form-table list exactly as written in onboarding.js lines 295-309. -/
def formTables : List FormType :=
  [ .complianceStatements
  , .confidentialityAgreements
  , .directDepositAuthorizations
  , .fieldPracticeStatements
  , .hepatitisBVaccinations
  , .healthStatements
  , .influenzaVaccinationDeclinations
  , .jobAcceptanceForms
  , .jobDescriptionAcknowledgments
  , .ppeAcknowledgements
  , .policiesProceduresStatements
  , .employeeHandbookAcknowledgments
  , .tbMedicalQuestionnaires ]

/-- Request body of POST /compliance-statement (onboarding.js lines 9-21).
`none` models an absent key; Joi's type coercions are library-external, so a
present value is kept as supplied. -/
structure ComplianceFields where
  employee_name : Option String
  employee_id : Option String
  position : Option String
  start_date : Option String
  background_check_completed : Option Bool
  drug_screening_completed : Option Bool
  licensure_verification : Option Bool
  tb_testing_completed : Option Bool
  required_immunizations_current : Option Bool
  electronic_signature : Option String
  signature_date : Option String
deriving DecidableEq, Repr

/-- complianceStatementSchema: every field is `.required()`
(onboarding.js lines 9-21), so validation succeeds iff all keys are present. -/
def complianceValid (f : ComplianceFields) : Bool :=
  f.employee_name.isSome && f.employee_id.isSome && f.position.isSome &&
  f.start_date.isSome && f.background_check_completed.isSome &&
  f.drug_screening_completed.isSome && f.licensure_verification.isSome &&
  f.tb_testing_completed.isSome && f.required_immunizations_current.isSome &&
  f.electronic_signature.isSome && f.signature_date.isSome

/-- A row of the compliance_statements table: user_id plus the validated body
(onboarding.js lines 127-134: `insert({ user_id: req.user.id, ...value })`). -/
structure ComplianceRow where
  user_id : Nat
  fields : ComplianceFields
deriving DecidableEq, Repr

/-- Outcome of POST /compliance-statement: 201 with the inserted row, or 400
on schema violation. -/
inductive SubmitResult
  | created (row : ComplianceRow)
  | validationError
deriving DecidableEq, Repr

/-- POST /compliance-statement (onboarding.js lines 117-148): validate the
body, then a plain `insert` into compliance_statements.  No unique constraint
on (user_id) is declared anywhere in the repository, so the insert appends
unconditionally; the handler performs no duplicate check of its own. -/
def submitComplianceStatement (db : List ComplianceRow) (uid : Nat)
    (body : ComplianceFields) : SubmitResult × List ComplianceRow :=
  if complianceValid body then
    let row : ComplianceRow := ⟨uid, body⟩
    (.created row, db ++ [row])
  else
    (.validationError, db)

/-- A row of the onboarding_progress table (onboarding.js lines 93-99 insert
user_id and started_at; onboarding_status is left to the column default,
modelled as `none`). -/
structure ProgressRow where
  user_id : Nat
  started_at : Nat
  onboarding_status : Option String
deriving DecidableEq, Repr

/-- Combined state touched by a form-submission request: the form table and
the onboarding_progress table. -/
structure OnboardState where
  compliance : List ComplianceRow
  progress : List ProgressRow
deriving DecidableEq, Repr

/-- POST /compliance-statement over the combined state.  The handler
(onboarding.js lines 117-148) reads and writes only compliance_statements;
it never touches onboarding_progress. -/
def submitComplianceFull (st : OnboardState) (uid : Nat)
    (body : ComplianceFields) : SubmitResult × OnboardState :=
  let out := submitComplianceStatement st.compliance uid body
  (out.1, { st with compliance := out.2 })

/-- Modelled from the spec: the status-derivation rule of section 4.2 over a
count of submitted catalog types — zero gives pending, some-but-not-all gives
in_progress, all gives completed.  This rule is not implemented anywhere in
the source (spec section 9 notes the derivation is a reconstruction); it is
stated here only to compare it with what the code does. -/
def specDerivedStatus (submittedCount total : Nat) : String :=
  if submittedCount = 0 then "pending"
  else if submittedCount < total then "in_progress"
  else "completed"

/-- Outcome of GET /progress: 200 with a progress row, or 400 carrying the
store error message (onboarding.js lines 88 and 103). -/
inductive EnsureResult
  | ok (row : ProgressRow)
  | err (msg : String)
deriving DecidableEq, Repr

/-- GET /progress (onboarding.js lines 78-114).  The handler reads the row
for the caller, and inserts one when none was found.  `dbAtRead` is the table
when the select runs and `dbAtInsert` the table when the insert runs; a row
for the same user appearing in between models a concurrent create, which
makes the insert hit the unique constraint on user_id (auth.js line 121 shows
the constraint exists: error code 23505).  The handler forwards any
`createError` as a 400 response (line 103); it does not re-read. -/
def ensureProgress (dbAtRead dbAtInsert : List ProgressRow) (uid now : Nat) :
    EnsureResult × List ProgressRow :=
  match dbAtRead.find? (fun p => p.user_id == uid) with
  | some row => (.ok row, dbAtInsert)
  | none =>
    if dbAtInsert.any (fun p => p.user_id == uid) then
      (.err "duplicate key value violates unique constraint", dbAtInsert)
    else
      let row : ProgressRow := ⟨uid, now, none⟩
      (.ok row, dbAtInsert ++ [row])

/-- A row of the users table, with the columns the three route files touch.
`created_at`/`updated_at` are abstract instants. -/
structure UserRow where
  id : Nat
  email : String
  full_name : String
  department : Option String
  position : Option String
  start_date : Option String
  employee_id : Option String
  role : String
  is_active : Bool
  onboarding_status : Option String
  phone : Option String
  created_at : Nat
  updated_at : Nat
deriving DecidableEq, Repr

/-- Request body of the signup endpoints before validation (auth.js 7-15).
`role` is `none` when the key is absent. -/
structure SignupBody where
  email : String
  password : String
  role : Option String
  full_name : String
  department : Option String
  position : Option String
  start_date : Option String
deriving DecidableEq, Repr

/-- The value produced by a successful signupSchema validation: the role has
been resolved (defaulted to employee when absent). -/
structure SignupValue where
  email : String
  password : String
  role : String
  full_name : String
  department : Option String
  position : Option String
  start_date : Option String
deriving DecidableEq, Repr

/-- signupSchema (auth.js lines 7-15): password at least 8 characters; role
one of admin/manager/employee, defaulting to employee when absent.  Joi's
email-format regex lives in the Joi library, outside this repository, and
presence of the required string fields is structural in `SignupBody`. -/
def validateSignup (b : SignupBody) : Option SignupValue :=
  if b.password.length < 8 then none
  else
    match b.role with
    | none =>
      some ⟨b.email, b.password, "employee", b.full_name, b.department,
            b.position, b.start_date⟩
    | some r =>
      if r == "admin" || r == "manager" || r == "employee" then
        some ⟨b.email, b.password, r, b.full_name, b.department,
              b.position, b.start_date⟩
      else none

/-- JavaScript's `x || null` applied to an optional string column value:
an absent value stays null and the empty string (falsy) becomes null
(auth.js lines 73-75: `department: department || null`, etc.). -/
def jsOrNull (o : Option String) : Option String :=
  match o with
  | some s => if s = "" then none else some s
  | none => none

/-- The update applied to the trigger-created users row by the employee
signup (auth.js lines 69-82). -/
def employeeUpdateRow (v : SignupValue) (genId : String) (now : Nat)
    (row : UserRow) : UserRow :=
  { row with
    full_name := v.full_name
    department := jsOrNull v.department
    position := jsOrNull v.position
    start_date := v.start_date
    employee_id := some genId
    role := "employee"
    updated_at := now }

/-- The row inserted by the employee-signup fallback (auth.js lines 88-103).
Columns the insert does not mention (is_active, onboarding_status, phone)
take their column defaults. -/
def employeeInsertRow (authId : Nat) (authEmail : String) (v : SignupValue)
    (genId : String) (now : Nat) : UserRow :=
  { id := authId
  , email := authEmail
  , full_name := v.full_name
  , department := jsOrNull v.department
  , position := jsOrNull v.position
  , start_date := v.start_date
  , employee_id := some genId
  , role := "employee"
  , is_active := true
  , onboarding_status := none
  , phone := none
  , created_at := now
  , updated_at := now }

/-- The user object of the 201 response of POST /signup/employee
(auth.js lines 126-136 and 139-149). -/
structure UserResponse where
  id : Nat
  email : String
  employee_id : Option String
  full_name : String
  role : String
  onboarding_status : String
deriving DecidableEq, Repr

/-- `responseOf row` builds the 201 response body from a users row, with
`row.onboarding_status || "pending"` (auth.js lines 134 and 147). -/
def responseOf (r : UserRow) : UserResponse :=
  ⟨r.id, r.email, r.employee_id, r.full_name, r.role,
   r.onboarding_status.getD "pending"⟩

/-- Outcome of POST /signup/employee after the identity account exists:
201 with the response user, or 500 "Failed to create user profile"
(auth.js line 107). -/
inductive EmployeeSignupResult
  | created (u : UserResponse)
  | badRequest
  | profileError
deriving DecidableEq, Repr

/-- POST /signup/employee after the identity-provider account was created
with id `authId` / email `authEmail` and the employee id `genId` was
generated (auth.js lines 55-149).  `usersAtUpdate` is the users table when
the update runs; when the update matches no row (the trigger has not
materialized the profile yet, so `.single()` errors), the fallback insert
runs against `usersAtInsert` — a row with the same id appearing there in the
meantime makes the insert fail, which the handler turns into a 500
(lines 105-108).  Only the fallback branch inserts an onboarding_progress
row, ignoring a duplicate-key error 23505 (lines 113-124); the
update-success branch returns directly (lines 139-149). -/
def signupEmployeeAfterAuth (usersAtUpdate usersAtInsert : List UserRow)
    (progressDb : List ProgressRow) (authId : Nat) (authEmail : String)
    (v : SignupValue) (genId : String) (now : Nat) :
    EmployeeSignupResult × List UserRow × List ProgressRow :=
  match usersAtUpdate.find? (fun r => r.id == authId) with
  | some row =>
    let updated := employeeUpdateRow v genId now row
    let users' := usersAtUpdate.map
      (fun r => if r.id == authId then employeeUpdateRow v genId now r else r)
    (.created (responseOf updated), users', progressDb)
  | none =>
    if usersAtInsert.any (fun r => r.id == authId) then
      (.profileError, usersAtInsert, progressDb)
    else
      let newRow := employeeInsertRow authId authEmail v genId now
      let users' := usersAtInsert ++ [newRow]
      let progress' :=
        if progressDb.any (fun p => p.user_id == authId) then progressDb
        else progressDb ++ [⟨authId, now, none⟩]
      (.created (responseOf newRow), users', progress')

/-- The full POST /signup/employee: schema validation (400 on failure,
auth.js lines 25-30), then the post-auth flow.  The validated role is
ignored: metadata, update and insert all hard-code role "employee"
(auth.js lines 42, 77, 98). -/
def signupEmployee (b : SignupBody) (usersAtUpdate usersAtInsert : List UserRow)
    (progressDb : List ProgressRow) (authId : Nat) (authEmail : String)
    (genId : String) (now : Nat) :
    EmployeeSignupResult × List UserRow × List ProgressRow :=
  match validateSignup b with
  | none => (.badRequest, usersAtUpdate, progressDb)
  | some v =>
    signupEmployeeAfterAuth usersAtUpdate usersAtInsert progressDb authId
      authEmail v genId now

/-- Modelled from the spec: the baseline profile row that the identity
provider's trigger materializes after `createUser` (spec sections 4.1 and
glossary; the trigger itself is outside this repository).  It carries the new
identity's id and email; business fields are at their defaults and
onboarding_status is unset. -/
def triggerBaselineRow (authId : Nat) (authEmail : String) (createdAt : Nat) :
    UserRow :=
  { id := authId
  , email := authEmail
  , full_name := ""
  , department := none
  , position := none
  , start_date := none
  , employee_id := none
  , role := "employee"
  , is_active := true
  , onboarding_status := none
  , phone := none
  , created_at := createdAt
  , updated_at := createdAt }

/-- The user object of the 201 response of POST /signup/admin
(auth.js lines 231-239 and 242-250). -/
structure AdminUserResponse where
  id : Nat
  email : String
  full_name : String
  role : String
deriving DecidableEq, Repr

/-- Outcome of POST /signup/admin: 201, 400 on schema violation, 400
"Invalid role for admin signup" (auth.js line 169), or 500 on profile
failure. -/
inductive AdminSignupResult
  | created (u : AdminUserResponse)
  | badRequest
  | invalidRole
  | profileError
deriving DecidableEq, Repr

/-- The update applied to the users row by the admin/manager signup
(auth.js lines 194-205). -/
def adminUpdateRow (v : SignupValue) (now : Nat) (row : UserRow) : UserRow :=
  { row with
    full_name := v.full_name
    department := jsOrNull v.department
    position := jsOrNull v.position
    role := v.role
    updated_at := now }

/-- The row inserted by the admin-signup fallback (auth.js lines 211-224). -/
def adminInsertRow (authId : Nat) (authEmail : String) (v : SignupValue)
    (now : Nat) : UserRow :=
  { id := authId
  , email := authEmail
  , full_name := v.full_name
  , department := jsOrNull v.department
  , position := jsOrNull v.position
  , start_date := none
  , employee_id := none
  , role := v.role
  , is_active := true
  , onboarding_status := none
  , phone := none
  , created_at := now
  , updated_at := now }

/-- POST /signup/admin (auth.js lines 157-255): schema validation, then the
role gate `["admin","manager"].includes(role)` — which runs before
`createUser`, so a rejected role leaves every store untouched — then the
same update-or-fallback-insert flow as the employee endpoint, with the
validated role written instead of a hard-coded one and no employee id or
progress row. -/
def signupAdmin (b : SignupBody) (usersAtUpdate usersAtInsert : List UserRow)
    (authId : Nat) (authEmail : String) (now : Nat) :
    AdminSignupResult × List UserRow :=
  match validateSignup b with
  | none => (.badRequest, usersAtUpdate)
  | some v =>
    if v.role == "admin" || v.role == "manager" then
      match usersAtUpdate.find? (fun r => r.id == authId) with
      | some row =>
        let updated := adminUpdateRow v now row
        let users' := usersAtUpdate.map
          (fun r => if r.id == authId then adminUpdateRow v now r else r)
        (.created ⟨updated.id, updated.email, updated.full_name, updated.role⟩,
         users')
      | none =>
        if usersAtInsert.any (fun r => r.id == authId) then
          (.profileError, usersAtInsert)
        else
          let newRow := adminInsertRow authId authEmail v now
          (.created ⟨newRow.id, newRow.email, newRow.full_name, newRow.role⟩,
           usersAtInsert ++ [newRow])
    else (.invalidRole, usersAtUpdate)

/-- The role-gated operations the claims mention, with the allowed-role list
each route registration passes to the middleware. -/
inductive GatedOp
  | adminAll
  | adminEmployeeDetail
  | listUsers
  | getUserById
  | updateUser
  | deactivateUser
deriving DecidableEq, Repr

/-- Modelled from the spec: the requireRole middleware
(src/middleware/auth.js is not part of the provided sources).  Per spec
sections 4.4 and 6, the authenticated caller's resolved role must be one of
the allowed roles, otherwise the request is denied before the handler
runs. -/
def requireRole (allowed : List Role) (caller : Role) : Bool :=
  allowed.contains caller

/-- The allowed-role list each route registration passes to requireRole:
onboarding.js line 335 (GET /admin/all) and line 381
(GET /admin/employee/:id); user.js line 64 (GET /), line 107 (GET /:id),
line 129 (PUT /:id), line 163 (PATCH /:id/deactivate). -/
def allowedRoles : GatedOp → List Role
  | .adminAll => [.admin, .manager]
  | .adminEmployeeDetail => [.admin, .manager]
  | .listUsers => [.admin, .manager]
  | .getUserById => [.admin, .manager]
  | .updateUser => [.admin]
  | .deactivateUser => [.admin]

/-- Whether a caller with the given role passes the gate of an operation. -/
def opAllowed (op : GatedOp) (caller : Role) : Bool :=
  requireRole (allowedRoles op) caller

/-- A generic row of one of the thirteen form tables: user_id plus an opaque
field list. -/
structure GenericFormRow where
  user_id : Nat
  fields : List (String × String)
deriving DecidableEq, Repr

/-- GET /forms (onboarding.js lines 290-330): for every table in
`formTables` the handler assigns `forms[table]` — the rows of that table for
the caller, or `[]` on a store error — so the response object has a key for
every catalog table unconditionally. -/
def getForms (db : List (FormType × GenericFormRow)) (uid : Nat) :
    List (FormType × List GenericFormRow) :=
  formTables.map
    (fun t => (t, (db.filter
      (fun p => p.1 == t && p.2.user_id == uid)).map (fun p => p.2)))

/-- Request body of PUT /profile (user.js line 34).  `none` models an absent
key, which the store client drops from the update payload, leaving that
column unchanged. -/
structure ProfileBody where
  full_name : Option String
  department : Option String
  position : Option String
  phone : Option String
deriving DecidableEq, Repr

/-- The per-row effect of the PUT /profile update statement
(user.js lines 36-47): only full_name, department, position, phone and
updated_at are present in the update payload. -/
def profileRowUpdate (b : ProfileBody) (now : Nat) (row : UserRow) : UserRow :=
  { row with
    full_name := b.full_name.getD row.full_name
    department := match b.department with | none => row.department | some s => some s
    position := match b.position with | none => row.position | some s => some s
    phone := match b.phone with | none => row.phone | some s => some s
    updated_at := now }

/-- Outcome of PUT /profile: 200 with the updated row, or 400 when
`.single()` finds no row for the caller. -/
inductive ProfileUpdateResult
  | ok (row : UserRow)
  | err
deriving DecidableEq, Repr

/-- PUT /profile (user.js lines 32-61): update the row whose id equals the
caller's id — no other row matches the `.eq("id", req.user.id)` filter — and
return the updated row. -/
def updateProfile (users : List UserRow) (callerId : Nat) (b : ProfileBody)
    (now : Nat) : ProfileUpdateResult × List UserRow :=
  let users' := users.map
    (fun r => if r.id == callerId then profileRowUpdate b now r else r)
  match users'.find? (fun r => r.id == callerId) with
  | some r => (.ok r, users')
  | none => (.err, users')

/-- A fully populated compliance body, used for concrete evaluations. -/
def sampleCompliance : ComplianceFields :=
  { employee_name := some "Ada Lovelace"
  , employee_id := some "EMP-001"
  , position := some "Nurse"
  , start_date := some "2026-01-05"
  , background_check_completed := some true
  , drug_screening_completed := some true
  , licensure_verification := some true
  , tb_testing_completed := some true
  , required_immunizations_current := some true
  , electronic_signature := some "Ada Lovelace"
  , signature_date := some "2026-01-05" }

/-- C1 counterexample: the claim says a second submit for the same
(employee, form type) fails with DuplicateSubmission and the ledger never
holds two submissions for the pair.  On the code, with a compliance
statement already recorded for employee 1, a second POST /compliance-statement
succeeds (201, `.created`) and the table then holds two rows for the pair. -/
theorem submit_duplicate_not_rejected_cex :
    (submitComplianceStatement [⟨1, sampleCompliance⟩] 1 sampleCompliance).1
      = .created ⟨1, sampleCompliance⟩
    ∧ ((submitComplianceStatement [⟨1, sampleCompliance⟩] 1
          sampleCompliance).2.filter (fun r => r.user_id == 1)).length = 2 :=
  ⟨rfl, rfl⟩

/-- C1 amended: a valid submit always succeeds and appends its row — there
is no duplicate check — so when a submission for the same employee already
exists, the second call succeeds and the table holds at least two rows for
that (employee, form type) pair. -/
theorem submit_appends_unconditionally (db : List ComplianceRow) (uid : Nat)
    (body : ComplianceFields) (h : complianceValid body = true) :
    (submitComplianceStatement db uid body).1 = .created ⟨uid, body⟩
    ∧ (submitComplianceStatement db uid body).2 = db ++ [⟨uid, body⟩]
    ∧ (db.any (fun r => r.user_id == uid) = true →
        2 ≤ ((submitComplianceStatement db uid body).2.filter
          (fun r => r.user_id == uid)).length) := by
  refine ⟨?_, ?_, ?_⟩
  · simp [submitComplianceStatement, h]
  · simp [submitComplianceStatement, h]
  · intro hx
    rw [List.any_eq_true] at hx
    obtain ⟨x, hmem, hp⟩ := hx
    have hxf : x ∈ db.filter (fun r => r.user_id == uid) :=
      List.mem_filter.mpr ⟨hmem, hp⟩
    have hpos : 0 < (db.filter (fun r => r.user_id == uid)).length :=
      List.length_pos.mpr (List.ne_nil_of_mem hxf)
    simp [submitComplianceStatement, h, List.filter_append]
    omega

theorem submit_appends_unconditionally_witness :
    (submitComplianceStatement [⟨1, sampleCompliance⟩] 1 sampleCompliance).2
      = [⟨1, sampleCompliance⟩] ++ [⟨1, sampleCompliance⟩] :=
  (submit_appends_unconditionally [⟨1, sampleCompliance⟩] 1 sampleCompliance
    rfl).2.1

/-- C2 counterexample: the claim says a successful submit synchronously
recomputes the aggregate status, which with one of the thirteen catalog
types submitted must read in_progress.  On the code, after a successful
compliance-statement submit for employee 1 the progress row still carries
its old status (pending): the handler never touches onboarding_progress. -/
theorem submit_does_not_recompute_status_cex :
    (submitComplianceFull ⟨[], [⟨1, 0, some "pending"⟩]⟩ 1
        sampleCompliance).1 = .created ⟨1, sampleCompliance⟩
    ∧ ((submitComplianceFull ⟨[], [⟨1, 0, some "pending"⟩]⟩ 1
        sampleCompliance).2).progress = [⟨1, 0, some "pending"⟩]
    ∧ specDerivedStatus 1 13 = "in_progress"
    ∧ ("pending" : String) ≠ "in_progress" := by
  refine ⟨rfl, rfl, rfl, ?_⟩
  decide

/-- C2 amended: a form submission leaves the onboarding_progress table
exactly unchanged — no status recomputation happens on the submit path. -/
theorem submit_preserves_progress (st : OnboardState) (uid : Nat)
    (body : ComplianceFields) :
    ((submitComplianceFull st uid body).2).progress = st.progress := rfl

/-- C3 counterexample: the claim says a create-conflict (a row appearing
concurrently) is treated as "already exists", re-read and returned.  On the
code, when no row exists at read time but one exists by insert time, the
handler returns the store error as a 400 instead of the existing row. -/
theorem ensureProgress_conflict_is_error_cex :
    (ensureProgress [] [⟨1, 5, none⟩] 1 7).1
      = .err "duplicate key value violates unique constraint"
    ∧ (ensureProgress [] [⟨1, 5, none⟩] 1 7).1 ≠ .ok ⟨1, 5, none⟩
    ∧ (ensureProgress [] [⟨1, 5, none⟩] 1 7).2 = [⟨1, 5, none⟩] := by
  decide

/-- C3 amended: GET /progress is get-or-create in the race-free cases — an
existing row is returned unchanged, an absent row is created exactly once —
but a create-conflict is surfaced as a 400 error rather than converted to
"already exists". -/
theorem ensureProgress_get_or_create (dbAtRead dbAtInsert : List ProgressRow)
    (uid now : Nat) :
    (∀ row, dbAtRead.find? (fun p => p.user_id == uid) = some row →
      ensureProgress dbAtRead dbAtInsert uid now = (.ok row, dbAtInsert))
    ∧ (dbAtRead.find? (fun p => p.user_id == uid) = none →
        dbAtInsert.any (fun p => p.user_id == uid) = false →
        ensureProgress dbAtRead dbAtInsert uid now
          = (.ok ⟨uid, now, none⟩, dbAtInsert ++ [⟨uid, now, none⟩]))
    ∧ (dbAtRead.find? (fun p => p.user_id == uid) = none →
        dbAtInsert.any (fun p => p.user_id == uid) = true →
        ensureProgress dbAtRead dbAtInsert uid now
          = (.err "duplicate key value violates unique constraint",
             dbAtInsert)) := by
  refine ⟨?_, ?_, ?_⟩
  · intro row h
    simp [ensureProgress, h]
  · intro h1 h2
    simp [ensureProgress, h1, h2]
  · intro h1 h2
    simp [ensureProgress, h1, h2]

theorem ensureProgress_get_or_create_witness :
    ensureProgress [] [] 1 7 = (.ok ⟨1, 7, none⟩, [] ++ [⟨1, 7, none⟩]) :=
  (ensureProgress_get_or_create [] [] 1 7).2.1 rfl rfl

/-- A concrete validated signup value, used for concrete evaluations. -/
def sampleSignupValue : SignupValue :=
  ⟨"a@x.com", "password1", "employee", "Ada Lovelace", none, none, none⟩

/-- A signup body with the role key absent. -/
def sampleBodyNoRole : SignupBody :=
  ⟨"a@x.com", "password1", none, "Ada Lovelace", none, none, none⟩

/-- C4 counterexample: the claim says a progress record exists when
provision returns on both branches.  On the code, when the trigger row is
present and the update succeeds, signup returns 201 with the progress table
still empty: only the fallback branch inserts into onboarding_progress. -/
theorem signup_update_path_no_progress_cex :
    (signupEmployeeAfterAuth [triggerBaselineRow 1 "a@x.com" 0] [] [] 1
        "a@x.com" sampleSignupValue "E1" 3).1
      = .created ⟨1, "a@x.com", some "E1", "Ada Lovelace", "employee",
                  "pending"⟩
    ∧ (signupEmployeeAfterAuth [triggerBaselineRow 1 "a@x.com" 0] [] [] 1
        "a@x.com" sampleSignupValue "E1" 3).2.2 = [] :=
  ⟨rfl, rfl⟩

/-- C4 amended: a progress record is ensured only on the fallback-insert
path (where a duplicate-key conflict is converted to success); on the
update-succeeded path the progress table is returned untouched. -/
theorem signup_progress_by_path (uu ui : List UserRow)
    (prog : List ProgressRow) (aid : Nat) (ae : String) (v : SignupValue)
    (genId : String) (now : Nat) :
    ((uu.find? (fun r => r.id == aid)).isSome = true →
      (signupEmployeeAfterAuth uu ui prog aid ae v genId now).2.2 = prog)
    ∧ (uu.find? (fun r => r.id == aid) = none →
        ui.any (fun r => r.id == aid) = false →
        ∃ p ∈ (signupEmployeeAfterAuth uu ui prog aid ae v genId now).2.2,
          p.user_id = aid) := by
  constructor
  · intro h
    obtain ⟨row, hrow⟩ := Option.isSome_iff_exists.mp h
    simp [signupEmployeeAfterAuth, hrow]
  · intro h1 h2
    simp only [signupEmployeeAfterAuth, h1, h2, Bool.false_eq_true,
      if_false]
    by_cases hp : prog.any (fun p => p.user_id == aid) = true
    · simp only [hp, if_true]
      rw [List.any_eq_true] at hp
      obtain ⟨p, hm, he⟩ := hp
      exact ⟨p, hm, by simpa using he⟩
    · simp only [Bool.not_eq_true] at hp
      simp only [hp, Bool.false_eq_true, if_false]
      exact ⟨⟨aid, now, none⟩, by simp, rfl⟩

theorem signup_progress_by_path_witness :
    (signupEmployeeAfterAuth [triggerBaselineRow 1 "a@x.com" 0] []
        [⟨9, 0, none⟩] 1 "a@x.com" sampleSignupValue "E1" 3).2.2
      = [⟨9, 0, none⟩] :=
  (signup_progress_by_path [triggerBaselineRow 1 "a@x.com" 0] []
    [⟨9, 0, none⟩] 1 "a@x.com" sampleSignupValue "E1" 3).1 rfl

/-- Helper: whenever the post-auth employee-signup flow returns 201, the
response user and every stored row for the new identity carry role
"employee". -/
theorem signupEmployeeAfterAuth_created_role (uu ui : List UserRow)
    (prog : List ProgressRow) (aid : Nat) (ae : String) (v : SignupValue)
    (genId : String) (now : Nat) (u : UserResponse) (users' : List UserRow)
    (prog' : List ProgressRow)
    (h : signupEmployeeAfterAuth uu ui prog aid ae v genId now
      = (.created u, users', prog')) :
    u.role = "employee" ∧ ∀ r ∈ users', r.id = aid → r.role = "employee" := by
  cases hf : uu.find? (fun r => r.id == aid) with
  | some row =>
    simp only [signupEmployeeAfterAuth, hf, Prod.mk.injEq,
      EmployeeSignupResult.created.injEq] at h
    obtain ⟨hu, husers, -⟩ := h
    constructor
    · rw [← hu]; rfl
    · intro r hr hid
      rw [← husers] at hr
      rw [List.mem_map] at hr
      obtain ⟨r₀, hr₀, hfr⟩ := hr
      by_cases hcase : r₀.id = aid
      · have hb : (r₀.id == aid) = true := by simpa using hcase
        rw [← hfr]
        simp [hb, employeeUpdateRow]
      · have hb : (r₀.id == aid) = false := by simpa using hcase
        rw [← hfr] at hid
        simp only [hb, Bool.false_eq_true, if_false] at hid
        exact absurd hid hcase
  | none =>
    cases hins : ui.any (fun r => r.id == aid) with
    | true =>
      simp [signupEmployeeAfterAuth, hf, hins] at h
    | false =>
      simp only [signupEmployeeAfterAuth, hf, hins, Bool.false_eq_true,
        if_false, Prod.mk.injEq, EmployeeSignupResult.created.injEq] at h
      obtain ⟨hu, husers, -⟩ := h
      constructor
      · rw [← hu]; rfl
      · intro r hr hid
        rw [← husers] at hr
        rw [List.mem_append] at hr
        cases hr with
        | inl hmem =>
          have hfalse : ¬ (ui.any (fun r => r.id == aid) = true) := by
            simp [hins]
          exact absurd
            (List.any_eq_true.mpr ⟨r, hmem, by simpa using hid⟩) hfalse
        | inr hmem =>
          have : r = employeeInsertRow aid ae v genId now := by simpa using hmem
          rw [this]; rfl

/-- C5: the employee self-signup hard-codes role "employee" into every row
it writes and into the response, whatever role the body supplied; the
privileged signup rejects any resolved role outside admin/manager — in
particular an absent role, which defaults to employee — with a 400 before
any store is touched. -/
theorem signup_role_enforcement (b : SignupBody) (uu ui : List UserRow)
    (prog : List ProgressRow) (aid : Nat) (ae : String) (genId : String)
    (now : Nat) :
    (∀ u users' prog',
      signupEmployee b uu ui prog aid ae genId now
        = (.created u, users', prog') →
      u.role = "employee" ∧ ∀ r ∈ users', r.id = aid → r.role = "employee")
    ∧ (∀ v, validateSignup b = some v → v.role ≠ "admin" →
        v.role ≠ "manager" →
        signupAdmin b uu ui aid ae now = (.invalidRole, uu))
    ∧ (validateSignup b = none →
        signupAdmin b uu ui aid ae now = (.badRequest, uu))
    ∧ (b.role = none →
        signupAdmin b uu ui aid ae now = (.invalidRole, uu)
        ∨ signupAdmin b uu ui aid ae now = (.badRequest, uu)) := by
  refine ⟨?_, ?_, ?_, ?_⟩
  · intro u users' prog' h
    cases hv : validateSignup b with
    | none => simp [signupEmployee, hv] at h
    | some v =>
      simp only [signupEmployee, hv] at h
      exact signupEmployeeAfterAuth_created_role uu ui prog aid ae v genId
        now u users' prog' h
  · intro v hv h1 h2
    simp [signupAdmin, hv, h1, h2]
  · intro hv
    simp [signupAdmin, hv]
  · intro hb
    by_cases hp : b.password.length < 8
    · right
      simp [signupAdmin, validateSignup, hp]
    · left
      have hv : validateSignup b
          = some ⟨b.email, b.password, "employee", b.full_name, b.department,
                  b.position, b.start_date⟩ := by
        simp [validateSignup, hp, hb]
      simp [signupAdmin, hv]

theorem signup_role_enforcement_witness :
    signupAdmin sampleBodyNoRole [] [] 1 "a@x.com" 3 = (.invalidRole, [])
    ∨ signupAdmin sampleBodyNoRole [] [] 1 "a@x.com" 3 = (.badRequest, []) :=
  (signup_role_enforcement sampleBodyNoRole [] [] [] 1 "a@x.com" "E1"
    3).2.2.2 rfl

/-- C6 counterexample: the claim says a fallback insert that fails because
the row already exists is treated as success, with the existing row re-read
and returned.  On the code, when no row matched the update but a row with
the identity's id exists by insert time, signup answers 500
"Failed to create user profile" instead of the existing row. -/
theorem fallback_insert_conflict_errors_cex :
    (signupEmployeeAfterAuth [] [triggerBaselineRow 1 "a@x.com" 0] [] 1
        "a@x.com" sampleSignupValue "E1" 3).1 = .profileError
    ∧ (signupEmployeeAfterAuth [] [triggerBaselineRow 1 "a@x.com" 0] [] 1
        "a@x.com" sampleSignupValue "E1" 3).1
      ≠ .created (responseOf (triggerBaselineRow 1 "a@x.com" 0))
    ∧ (signupEmployeeAfterAuth [] [triggerBaselineRow 1 "a@x.com" 0] [] 1
        "a@x.com" sampleSignupValue "E1" 3).2.1
      = [triggerBaselineRow 1 "a@x.com" 0] := by
  refine ⟨rfl, ?_, rfl⟩
  decide

/-- C6 amended: when the update matched no row and the fallback insert hits
an existing row with the identity's id, signup does not create a duplicate
row — the users table is returned unchanged — but it reports a 500 profile
failure rather than re-reading and returning the existing row. -/
theorem fallback_insert_conflict_behavior (uu ui : List UserRow)
    (prog : List ProgressRow) (aid : Nat) (ae : String) (v : SignupValue)
    (genId : String) (now : Nat)
    (h1 : uu.find? (fun r => r.id == aid) = none)
    (h2 : ui.any (fun r => r.id == aid) = true) :
    signupEmployeeAfterAuth uu ui prog aid ae v genId now
      = (.profileError, ui, prog) := by
  simp [signupEmployeeAfterAuth, h1, h2]

theorem fallback_insert_conflict_behavior_witness :
    signupEmployeeAfterAuth [] [triggerBaselineRow 2 "b@x.com" 0] [] 2
        "b@x.com" sampleSignupValue "E2" 3
      = (.profileError, [triggerBaselineRow 2 "b@x.com" 0], []) :=
  fallback_insert_conflict_behavior [] [triggerBaselineRow 2 "b@x.com" 0] []
    2 "b@x.com" sampleSignupValue "E2" 3 rfl rfl

/-- C7: for a fresh provisioning input the update-then-succeed path (trigger
row present) and the update-then-fallback-insert path (trigger row absent,
no conflict) return the identical 201 Account, and on both paths the
persisted row for the new identity carries the input's profile fields. -/
theorem signup_paths_return_same_account (v : SignupValue) (aid : Nat)
    (ae : String) (genId : String) (now t0 : Nat) (prog : List ProgressRow) :
    (signupEmployeeAfterAuth [triggerBaselineRow aid ae t0] [] prog aid ae v
        genId now).1
      = (signupEmployeeAfterAuth [] [] prog aid ae v genId now).1
    ∧ (signupEmployeeAfterAuth [] [] prog aid ae v genId now).1
      = .created ⟨aid, ae, some genId, v.full_name, "employee", "pending"⟩
    ∧ (∀ r ∈ (signupEmployeeAfterAuth [triggerBaselineRow aid ae t0] [] prog
          aid ae v genId now).2.1, r.id = aid →
        r.full_name = v.full_name ∧ r.email = ae
        ∧ r.employee_id = some genId ∧ r.role = "employee"
        ∧ r.department = jsOrNull v.department
        ∧ r.position = jsOrNull v.position ∧ r.start_date = v.start_date)
    ∧ (∀ r ∈ (signupEmployeeAfterAuth [] [] prog aid ae v genId now).2.1,
        r.id = aid →
        r.full_name = v.full_name ∧ r.email = ae
        ∧ r.employee_id = some genId ∧ r.role = "employee"
        ∧ r.department = jsOrNull v.department
        ∧ r.position = jsOrNull v.position ∧ r.start_date = v.start_date) := by
  refine ⟨?_, ?_, ?_, ?_⟩
  · simp [signupEmployeeAfterAuth, triggerBaselineRow, employeeUpdateRow,
      employeeInsertRow, responseOf, List.find?]
  · simp [signupEmployeeAfterAuth, employeeInsertRow, responseOf]
  · intro r hr hid
    have hr' : r = employeeUpdateRow v genId now (triggerBaselineRow aid ae t0) := by
      simpa [signupEmployeeAfterAuth, triggerBaselineRow, List.find?] using hr
    rw [hr']
    simp [employeeUpdateRow, triggerBaselineRow]
  · intro r hr hid
    have hr' : r = employeeInsertRow aid ae v genId now := by
      simpa [signupEmployeeAfterAuth, List.find?] using hr
    rw [hr']
    simp [employeeInsertRow]

theorem signup_paths_return_same_account_witness :
    (employeeUpdateRow sampleSignupValue "E5" 3
        (triggerBaselineRow 5 "c@x.com" 0)).full_name
      = sampleSignupValue.full_name
    ∧ (employeeUpdateRow sampleSignupValue "E5" 3
        (triggerBaselineRow 5 "c@x.com" 0)).email = "c@x.com"
    ∧ (employeeUpdateRow sampleSignupValue "E5" 3
        (triggerBaselineRow 5 "c@x.com" 0)).employee_id = some "E5"
    ∧ (employeeUpdateRow sampleSignupValue "E5" 3
        (triggerBaselineRow 5 "c@x.com" 0)).role = "employee"
    ∧ (employeeUpdateRow sampleSignupValue "E5" 3
        (triggerBaselineRow 5 "c@x.com" 0)).department
      = jsOrNull sampleSignupValue.department
    ∧ (employeeUpdateRow sampleSignupValue "E5" 3
        (triggerBaselineRow 5 "c@x.com" 0)).position
      = jsOrNull sampleSignupValue.position
    ∧ (employeeUpdateRow sampleSignupValue "E5" 3
        (triggerBaselineRow 5 "c@x.com" 0)).start_date
      = sampleSignupValue.start_date :=
  (signup_paths_return_same_account sampleSignupValue 5 "c@x.com" "E5" 3 0
    []).2.2.1
    (employeeUpdateRow sampleSignupValue "E5" 3
      (triggerBaselineRow 5 "c@x.com" 0))
    (by decide) (by decide)

/-- C8: the cross-employee read operations (aggregate view, per-employee
detail, user listing, user-by-id) pass the role gate exactly for admin and
manager callers, and the privileged mutations (arbitrary-account update,
deactivation) exactly for admin callers; employee callers are denied
everywhere here. -/
theorem access_policy_roles (r : Role) :
    opAllowed .adminAll r = (r == .admin || r == .manager)
    ∧ opAllowed .adminEmployeeDetail r = (r == .admin || r == .manager)
    ∧ opAllowed .listUsers r = (r == .admin || r == .manager)
    ∧ opAllowed .getUserById r = (r == .admin || r == .manager)
    ∧ opAllowed .updateUser r = (r == .admin)
    ∧ opAllowed .deactivateUser r = (r == .admin) := by
  cases r <;> decide

/-- C9 counterexample: the claim says form types with no submission are
omitted from the result.  On the code, for an employee with no submissions
at all, the response still carries an entry for every one of the thirteen
catalog tables, each holding an empty-list placeholder. -/
theorem getForms_includes_empty_types_cex :
    (FormType.complianceStatements, ([] : List GenericFormRow))
      ∈ getForms [] 0
    ∧ (getForms [] 0).length = 13 := by
  decide

/-- C9 amended: GET /forms returns an entry for every catalog form type —
exactly thirteen entries — where a type with no submission appears with an
empty list, not omitted, and a type with submissions appears with its
rows. -/
theorem getForms_all_types_present (db : List (FormType × GenericFormRow))
    (uid : Nat) (t : FormType) :
    (t, (db.filter (fun p => p.1 == t && p.2.user_id == uid)).map
        (fun p => p.2)) ∈ getForms db uid
    ∧ (getForms db uid).length = formTables.length := by
  constructor
  · have ht : t ∈ formTables := by cases t <;> simp [formTables]
    exact List.mem_map.mpr ⟨t, ht, rfl⟩
  · simp [getForms]

/-- C10: PUT /profile is the map of a per-row function that is the identity
on every row other than the caller's, and on the caller's row changes only
full_name, department, position, phone and updated_at — id, role, email,
employee_id, is_active, onboarding_status, start_date and created_at are all
preserved, so the caller cannot change their own role or active flag through
this operation. -/
theorem updateProfile_frame (users : List UserRow) (cid : Nat)
    (b : ProfileBody) (now : Nat) :
    (updateProfile users cid b now).2
      = users.map
          (fun r => if r.id == cid then profileRowUpdate b now r else r)
    ∧ (∀ r : UserRow, r.id ≠ cid →
        (if r.id == cid then profileRowUpdate b now r else r) = r)
    ∧ (∀ r : UserRow,
        (profileRowUpdate b now r).id = r.id
        ∧ (profileRowUpdate b now r).role = r.role
        ∧ (profileRowUpdate b now r).email = r.email
        ∧ (profileRowUpdate b now r).employee_id = r.employee_id
        ∧ (profileRowUpdate b now r).is_active = r.is_active
        ∧ (profileRowUpdate b now r).onboarding_status = r.onboarding_status
        ∧ (profileRowUpdate b now r).start_date = r.start_date
        ∧ (profileRowUpdate b now r).created_at = r.created_at) := by
  refine ⟨?_, ?_, ?_⟩
  · simp only [updateProfile]
    split <;> rfl
  · intro r hr
    have hb : (r.id == cid) = false := by simpa using hr
    simp [hb]
  · intro r
    exact ⟨rfl, rfl, rfl, rfl, rfl, rfl, rfl, rfl⟩

theorem updateProfile_frame_witness :
    (if (triggerBaselineRow 7 "d@x.com" 0).id == 3 then
        profileRowUpdate ⟨some "New Name", none, none, none⟩ 9
          (triggerBaselineRow 7 "d@x.com" 0)
      else triggerBaselineRow 7 "d@x.com" 0)
      = triggerBaselineRow 7 "d@x.com" 0 :=
  (updateProfile_frame [] 3 ⟨some "New Name", none, none, none⟩ 9).2.1
    (triggerBaselineRow 7 "d@x.com" 0) (by decide)

end MMO
